import Mathlib

/-!
Verification of the autoglm-mcp screen-analysis server
(`src/autoglm_mcp/server.py`) against its natural-language specification.

The Python module is shallowly embedded below.  Pure helpers become Lean
functions; the effectful pipeline (`get_screenshot_with_info`,
`get_current_app`, `run_request`, `ai_ask`, `call_tool`) is modelled as
pure functions over explicit oracle records (`Device`, `ModelOracle`) that
stand for the external collaborators (adb, PIL, the remote model), with an
explicit trace of the external calls performed and the final state of the
temporary screenshot file.  Machine arithmetic is exact: the Python
expression `int(x / 1000 * w)` for non-negative `x`, `w` is truncation,
i.e. `x * w / 1000` in natural-number division.
-/

namespace AutoglmMCP

/-! ### List and string search utilities

`prefL p s` decides whether the character list `p` is an initial segment
of `s`; `occursL p s` decides whether `p` occurs contiguously anywhere in
`s`.  `strStarts`/`strOccurs` lift these to `String`. -/

def prefL : List Char → List Char → Bool
  | [], _ => true
  | _ :: _, [] => false
  | p :: ps, s :: ss => if p = s then prefL ps ss else false

def occursL (p : List Char) : List Char → Bool
  | [] => prefL p []
  | c :: cs => prefL p (c :: cs) || occursL p cs

def strStarts (pat s : String) : Bool := prefL pat.data s.data

def strOccurs (pat s : String) : Bool := occursL pat.data s.data

theorem prefL_append (p t : List Char) : prefL p (p ++ t) = true := by
  induction p with
  | nil => rfl
  | cons c cs ih => simp [prefL, ih]

theorem prefL_cancel (a s t : List Char) :
    prefL (a ++ s) (a ++ t) = prefL s t := by
  induction a with
  | nil => rfl
  | cons c cs ih => simp [prefL, ih]

theorem occursL_of_prefL {p s : List Char} (h : prefL p s = true) :
    occursL p s = true := by
  cases s with
  | nil => exact h
  | cons c cs => simp [occursL, h]

theorem occursL_cat (a : List Char) {p s : List Char}
    (h : occursL p s = true) : occursL p (a ++ s) = true := by
  induction a with
  | nil => exact h
  | cons c cs ih => simp [occursL, ih]

/-! ### The pixel-conversion formulas (server.py lines 268-278)

`statedPixel` is the function denoted by the formula the conversion note
prints: `x_pixel = int(x / 1000 * width)`.  Python `int` truncates toward
zero and all quantities are non-negative, so in exact arithmetic this is
`⌊rel * dim / 1000⌋`, i.e. natural-number division. -/

def statedPixel (rel dim : Nat) : Nat := rel * dim / 1000

/-- Follows the spec's words (not the source): the rounding conversion
`pixel = round(relative / 1000 * dimension)` claimed by the specification,
with round-half-up in exact arithmetic:
`⌊(rel * dim) / 1000 + 1/2⌋ = (2 * (rel * dim) + 1000) / 2000`. -/
def specRoundPixel (rel dim : Nat) : Nat := (2 * (rel * dim) + 1000) / 2000

theorem floor_eq_roundHalfUp (n : Nat) :
    n / 1000 = (2 * n + 1000) / 2000 ↔ 2 * (n % 1000) < 1000 := by
  omega

/-! ### The conversion note (server.py lines 268-278)

`conversionNote w h` is the exact string the `run_request` f-string
prepends to the model's reply, segmented at the interpolation points so
that containment lemmas can be proved for arbitrary `w`, `h`. -/

def notePart1 : String :=
  "\n---\n⚠️ IMPORTANT: Coordinates below are relative (0-1000 scale), NOT pixels!\n\nMust convert to pixels using:\nScreen Info:\n"

def conversionNote (w h : Nat) : String :=
  notePart1 ++ "- Resolution: " ++ toString w ++ " x " ++ toString h ++
  "\n- Coordinate conversion: " ++
  "x_pixel = int(x / 1000 * " ++ toString w ++ ")" ++ ", " ++
  "y_pixel = int(y / 1000 * " ++ toString h ++ ")" ++ "\n---\n\n"

/-- Final augmented result of a successful query: the conversion note
followed by the model's reply (the `{result}` interpolation). -/
def augmentResult (w h : Nat) (reply : String) : String :=
  conversionNote w h ++ reply

theorem note_contains_xf (w h : Nat) :
    strOccurs ("x_pixel = int(x / 1000 * " ++ toString w ++ ")")
      (conversionNote w h) = true := by
  unfold strOccurs conversionNote
  simp only [String.data_append, List.append_assoc]
  apply occursL_cat
  apply occursL_cat
  apply occursL_cat
  apply occursL_cat
  apply occursL_cat
  apply occursL_cat
  apply occursL_of_prefL
  simp [prefL, prefL_cancel, prefL_append]

theorem note_contains_yf (w h : Nat) :
    strOccurs ("y_pixel = int(y / 1000 * " ++ toString h ++ ")")
      (conversionNote w h) = true := by
  unfold strOccurs conversionNote
  simp only [String.data_append, List.append_assoc]
  apply occursL_cat
  apply occursL_cat
  apply occursL_cat
  apply occursL_cat
  apply occursL_cat
  apply occursL_cat
  apply occursL_cat
  apply occursL_cat
  apply occursL_cat
  apply occursL_cat
  apply occursL_of_prefL
  simp [prefL, prefL_cancel, prefL_append]

theorem note_contains_res (w h : Nat) (tail : List Char) :
    occursL ("- Resolution: " ++ toString w ++ " x " ++ toString h).data
      ((conversionNote w h).data ++ tail) = true := by
  unfold conversionNote
  simp only [String.data_append, List.append_assoc]
  apply occursL_cat
  apply occursL_of_prefL
  simp [prefL, prefL_cancel, prefL_append]

/-! ### System prompt (server.py lines 55-126)

`datetime.today()` is the only impure input of `get_system_prompt`; it is
modelled by passing the current date explicitly.  `formatDate` renders
`today.strftime("%Y-%m-%d, %A")`: zero-padded year-month-day plus the full
English weekday name, computed with Zeller's congruence. -/

structure PDate where
  year : Nat
  month : Nat
  day : Nat
deriving DecidableEq, Repr

def digitChar (n : Nat) : Char :=
  match n % 10 with
  | 0 => '0' | 1 => '1' | 2 => '2' | 3 => '3' | 4 => '4'
  | 5 => '5' | 6 => '6' | 7 => '7' | 8 => '8' | _ => '9'

def pad4 (n : Nat) : String :=
  String.mk [digitChar (n / 1000), digitChar (n / 100), digitChar (n / 10), digitChar n]

def pad2 (n : Nat) : String :=
  String.mk [digitChar (n / 10), digitChar n]

/-- Zeller's congruence: 0 = Saturday, 1 = Sunday, ..., 6 = Friday. -/
def zeller (y m d : Nat) : Nat :=
  let y2 := if m < 3 then y - 1 else y
  let m2 := if m < 3 then m + 12 else m
  let k := y2 % 100
  let j := y2 / 100
  (d + 13 * (m2 + 1) / 5 + k + k / 4 + j / 4 + 5 * j) % 7

def weekdayName (y m d : Nat) : String :=
  match zeller y m d with
  | 0 => "Saturday" | 1 => "Sunday" | 2 => "Monday" | 3 => "Tuesday"
  | 4 => "Wednesday" | 5 => "Thursday" | _ => "Friday"

def formatDate (d : PDate) : String :=
  pad4 d.year ++ "-" ++ pad2 d.month ++ "-" ++ pad2 d.day ++ ", " ++
  weekdayName d.year d.month d.day

/-- Everything of the `get_system_prompt` f-string after the date line,
transcribed verbatim from server.py lines 61-126. -/
def systemPromptBody : String :=
  "# Setup\n" ++
  "You are a professional Android operation agent assistant that can fulfill the user's high-level instructions. Given a screenshot of the Android interface at each step, you first analyze the situation, then plan the best course of action using Python-style pseudo-code.\n" ++
  "\n" ++
  "# More details about the code\n" ++
  "Your response format must be structured as follows:\n" ++
  "\n" ++
  "Think first: Use <think>...</think> to analyze the current screen, identify key elements, and determine the most efficient action.\n" ++
  "Provide the action: Use <answer>...</answer> to return a single line of pseudo-code representing the operation.\n" ++
  "\n" ++
  "Your output should STRICTLY follow the format:\n" ++
  "<think>\n" ++
  "[Your thought]\n" ++
  "</think>\n" ++
  "<answer>\n" ++
  "[Your operation code]\n" ++
  "</answer>\n" ++
  "\n" ++
  "- **Tap**\n" ++
  "  Perform a tap action on a specified screen area. The element is a list of 2 integers, representing the coordinates of the tap point (0-1000 relative scale).\n" ++
  "  **Example**:\n" ++
  "  <answer>\n" ++
  "  do(action=\"Tap\", element=[x,y])\n" ++
  "  </answer>\n" ++
  "- **Type**\n" ++
  "  Enter text into the currently focused input field.\n" ++
  "  **Example**:\n" ++
  "  <answer>\n" ++
  "  do(action=\"Type\", text=\"Hello World\")\n" ++
  "  </answer>\n" ++
  "- **Swipe**\n" ++
  "  Perform a swipe action with start point and end point.\n" ++
  "  **Examples**:\n" ++
  "  <answer>\n" ++
  "  do(action=\"Swipe\", start=[x1,y1], end=[x2,y2])\n" ++
  "  </answer>\n" ++
  "- **Long Press**\n" ++
  "  Perform a long press action on a specified screen area.\n" ++
  "  **Example**:\n" ++
  "  <answer>\n" ++
  "  do(action=\"Long Press\", element=[x,y])\n" ++
  "  </answer>\n" ++
  "- **Launch**\n" ++
  "  Launch an app.\n" ++
  "  **Example**:\n" ++
  "  <answer>\n" ++
  "  do(action=\"Launch\", app=\"Settings\")\n" ++
  "  </answer>\n" ++
  "- **Back**\n" ++
  "  Press the Back button to navigate to the previous screen.\n" ++
  "  **Example**:\n" ++
  "  <answer>\n" ++
  "  do(action=\"Back\")\n" ++
  "  </answer>\n" ++
  "- **Finish**\n" ++
  "  Terminate the program and optionally print a message.\n" ++
  "  **Example**:\n" ++
  "  <answer>\n" ++
  "  finish(message=\"Task completed.\")\n" ++
  "  </answer>\n" ++
  "\n" ++
  "REMEMBER:\n" ++
  "- You MUST respond in English only. However, keep UI text (buttons, labels, etc.) in their original language as shown on screen.\n" ++
  "- Think before you act: Always analyze the current UI and the best course of action before executing any step.\n" ++
  "- Coordinates are on a 0-1000 relative scale. To convert to pixels: x_pixel = x / 1000 * screen_width\n" ++
  "- Only ONE LINE of action in <answer> part per response.\n"

/-- Embedding of `get_system_prompt`, with `datetime.today()` passed in. -/
def getSystemPrompt (today : PDate) : String :=
  "The current date: " ++ formatDate today ++ "\n" ++ systemPromptBody

/-- Drops everything through the first newline, i.e. removes the first
line of a character list. -/
def dropLine1 : List Char → List Char
  | [] => []
  | c :: cs => if c = '\n' then cs else dropLine1 cs

/-! ### Base64 and JSON helpers (base64.b64encode, json.dumps)

Bytes are modelled as naturals below 256. -/

def b64Alphabet : List Char :=
  "ABCDEFGHIJKLMNOPQRSTUVWXYZabcdefghijklmnopqrstuvwxyz0123456789+/".data

def b64Char (n : Nat) : Char := b64Alphabet.getD (n % 64) 'A'

def base64Chunks : List Nat → List Char
  | [] => []
  | [a] => [b64Char (a / 4), b64Char (a % 4 * 16), '=', '=']
  | [a, b] => [b64Char (a / 4), b64Char (a % 4 * 16 + b / 16), b64Char (b % 16 * 4), '=']
  | a :: b :: c :: rest =>
    b64Char (a / 4) :: b64Char (a % 4 * 16 + b / 16) ::
    b64Char (b % 16 * 4 + c / 64) :: b64Char (c % 64) :: base64Chunks rest

def base64Encode (bs : List Nat) : String := String.mk (base64Chunks bs)

def hexDigit (n : Nat) : Char := "0123456789abcdef".data.getD (n % 16) '0'

/-- JSON string escaping as performed by `json.dumps(..., ensure_ascii=False)`. -/
def jsonEscapeChar (c : Char) : List Char :=
  if c = '"' then ['\\', '"']
  else if c = '\\' then ['\\', '\\']
  else if c = '\n' then ['\\', 'n']
  else if c = '\t' then ['\\', 't']
  else if c = '\r' then ['\\', 'r']
  else if c = '\x08' then ['\\', 'b']
  else if c = '\x0c' then ['\\', 'f']
  else if c.toNat < 32 then
    ['\\', 'u', '0', '0', hexDigit (c.toNat / 16), hexDigit c.toNat]
  else [c]

/-- `json.dumps({"current_app": app}, ensure_ascii=False)`. -/
def jsonCurrentApp (app : String) : String :=
  "\x7b\"current_app\": \"" ++ String.mk (app.data.flatMap jsonEscapeChar) ++ "\"\x7d"

/-! ### External collaborators and effect traces

`Device` is the oracle for adb and PIL: whether each adb subprocess call
succeeds, the bytes of the pulled screenshot, PIL's decoding of any byte
string, and the stdout of `dumpsys activity activities` (`none` models a
raised exception).  `Effect` records each external call the pipeline
performs, so that "performs no device or network call" is statable. -/

inductive Effect where
  | adbScreencap
  | adbPull
  | adbDumpsys
  | modelCall
deriving DecidableEq, Repr

structure Device where
  screencapOk : Bool
  pullOk : Bool
  imgData : List Nat
  decode : List Nat → Option (Nat × Nat)
  dumpsysResult : Option String

/-- Result of `get_screenshot_with_info`: the returned value or the raised
exception's message, the adb calls performed, and whether the temporary
file still exists afterwards. -/
structure CapOutcome where
  result : Except String (String × Nat × Nat)
  effects : List Effect
  tempAfter : Bool

/-- Models the `try` block of `get_screenshot_with_info` (server.py lines
135-151): screencap, pull, decode; the temporary file created by
`NamedTemporaryFile(delete=False)` exists throughout (`tempAfter := true`
on every path out of the block).  Exception messages are representative;
the code surfaces `str(e)` whose exact text comes from the libraries. -/
def capBody (dev : Device) : CapOutcome :=
  if dev.screencapOk then
    if dev.pullOk then
      match dev.decode dev.imgData with
      | some (w, h) =>
        { result := .ok (base64Encode dev.imgData, w, h),
          effects := [.adbScreencap, .adbPull], tempAfter := true }
      | none =>
        { result := .error "cannot identify image file",
          effects := [.adbScreencap, .adbPull], tempAfter := true }
    else
      { result := .error "Command adb pull returned non-zero exit status 1.",
        effects := [.adbScreencap, .adbPull], tempAfter := true }
  else
    { result := .error "Command adb shell screencap returned non-zero exit status 1.",
      effects := [.adbScreencap], tempAfter := true }

/-- Models the `finally` block (server.py lines 152-154): if the temporary
file exists, remove it. -/
def removeTemp (o : CapOutcome) : CapOutcome :=
  { o with tempAfter := if o.tempAfter then false else o.tempAfter }

/-- Embedding of `get_screenshot_with_info` (server.py lines 130-154). -/
def getScreenshotWithInfo (dev : Device) : CapOutcome :=
  removeTemp (capBody dev)

theorem removeTemp_tempAfter (o : CapOutcome) :
    (removeTemp o).tempAfter = false := by
  cases h : o.tempAfter <;> simp [removeTemp, h]

/-! ### Foreground app detection (server.py lines 157-170)

`re.search(r'(?:mResumedActivity|topResumedActivity).*?(\S+)/\S+', out)`
is modelled directly.  `\S` is a non-whitespace character (the dump is
ASCII, so the ASCII whitespace class suffices); `.` matches any character
except a newline.  `capSplit r` realises the backtracking of greedy
`(\S+)/\S+` inside one maximal non-whitespace run `r`: the capture is the
part of `r` before its last `/` that has a non-empty prefix and a
non-empty remainder.  `scanDot` realises the lazy `.*?`, trying the token
match at each successive position without crossing a newline, and
`searchApp` scans for the leftmost literal alternative whose continuation
matches. -/

def notWS (c : Char) : Bool :=
  !(c = ' ' || c = '\t' || c = '\n' || c = '\r' || c = '\x0b' || c = '\x0c')

def capSplit : List Char → Option (List Char)
  | [] => none
  | c :: cs =>
    match capSplit cs with
    | some p => some (c :: p)
    | none =>
      match cs with
      | '/' :: t => if t.isEmpty then none else some [c]
      | _ => none

/-- Attempts `(\S+)/\S+` at exactly this position: the three regex pieces
all match non-whitespace, so any match lies inside the maximal
non-whitespace run starting here. -/
def tryToken (s : List Char) : Option (List Char) :=
  capSplit (s.takeWhile notWS)

def scanDot : List Char → Option (List Char)
  | [] => none
  | c :: cs =>
    match tryToken (c :: cs) with
    | some p => some p
    | none => if c = '\n' then none else scanDot cs

def litM : List Char := "mResumedActivity".data

def litTop : List Char := "topResumedActivity".data

def searchApp : List Char → Option (List Char)
  | [] => none
  | c :: cs =>
    if prefL litM (c :: cs) then
      match scanDot ((c :: cs).drop 16) with
      | some p => some p
      | none => searchApp cs
    else if prefL litTop (c :: cs) then
      match scanDot ((c :: cs).drop 18) with
      | some p => some p
      | none => searchApp cs
    else searchApp cs

/-- Embedding of `get_current_app` (server.py lines 157-170): `dump` is the
stdout of `adb shell dumpsys activity activities`, `none` modelling a
raised exception (swallowed by the bare `except`). -/
def getCurrentApp (dump : Option String) : String :=
  match dump with
  | none => "unknown"
  | some out =>
    match searchApp out.data with
    | some p => String.mk p
    | none => "unknown"

/-! ### The query pipeline (server.py lines 209-291) -/

structure Config where
  baseUrl : String
  modelName : String
  apikey : String
deriving DecidableEq, Repr

/-- Chat-completion request assembled by `run_request`: model name, the
system message, and the user message's image data-URI and text part. -/
structure ModelRequest where
  modelName : String
  systemContent : String
  imageUrl : String
  textBody : String
deriving DecidableEq, Repr

/-- Oracle for the remote model: `.ok` is
`response.choices[0].message.content`, `.error` the message of any
exception raised by the client call (transport failure, malformed
response, ...). -/
structure ModelOracle where
  response : ModelRequest → Except String String

/-- Outcome of the worker `run_request`: the returned string or the raised
exception's message, the request actually sent (if the model call was
reached), the external calls performed, and the temporary-file state. -/
structure RunOutcome where
  result : Except String String
  sentRequest : Option ModelRequest
  effects : List Effect
  tempAfter : Bool

/-- Embedding of the worker closure `run_request` (server.py lines
229-278). -/
def runRequest (cfg : Config) (question : String) (today : PDate)
    (dev : Device) (mo : ModelOracle) : RunOutcome :=
  let cap := getScreenshotWithInfo dev
  match cap.result with
  | .error e =>
    { result := .error e, sentRequest := none, effects := cap.effects,
      tempAfter := cap.tempAfter }
  | .ok (b64, w, h) =>
    let currentApp := getCurrentApp dev.dumpsysResult
    let screenInfo := jsonCurrentApp currentApp
    let req : ModelRequest :=
      { modelName := cfg.modelName,
        systemContent := getSystemPrompt today,
        imageUrl := "data:image/png;base64," ++ b64,
        textBody := question ++ "\n\n" ++ screenInfo }
    let effs := cap.effects ++ [.adbDumpsys, .modelCall]
    match mo.response req with
    | .error e =>
      { result := .error e, sentRequest := some req, effects := effs,
        tempAfter := cap.tempAfter }
    | .ok content =>
      { result := .ok (augmentResult w h content), sentRequest := some req,
        effects := effs, tempAfter := cap.tempAfter }

/-- Mirror of `mcp.types.TextContent(type="text", text=...)`. -/
structure TextContent where
  type : String
  text : String
deriving DecidableEq, Repr

/-- Outcome of `ai_ask`: the returned content list, the external calls
performed, and the temporary-file state. -/
structure AskOutcome where
  contents : List TextContent
  effects : List Effect
  tempAfter : Bool

/-- The `timeout=60` argument of `asyncio.wait_for` (server.py line 283). -/
def aiAskDeadline : Nat := 60

/-- Embedding of `ai_ask` (server.py lines 218-291).  `dur` is the
wall-clock duration the worker takes; `asyncio.wait_for` yields the
worker's outcome when `dur ≤ aiAskDeadline` and raises
`asyncio.TimeoutError` otherwise.  On timeout the call detaches: the
worker still runs (its effects happen), but its result is ignored. -/
def aiAsk (cfg : Config) (question : String) (today : PDate)
    (dev : Device) (mo : ModelOracle) (dur : Nat) : AskOutcome :=
  if cfg.apikey = "" then
    { contents := [TextContent.mk "text" "Error: AUTOGLM_APIKEY environment variable not set"],
      effects := [], tempAfter := false }
  else if question = "" then
    { contents := [TextContent.mk "text" "Error: Question cannot be empty"],
      effects := [], tempAfter := false }
  else
    let ro := runRequest cfg question today dev mo
    if aiAskDeadline < dur then
      { contents := [TextContent.mk "text" "Error: Request timeout (60 seconds)"],
        effects := ro.effects, tempAfter := ro.tempAfter }
    else
      match ro.result with
      | .ok s =>
        { contents := [TextContent.mk "text" s], effects := ro.effects,
          tempAfter := ro.tempAfter }
      | .error e =>
        { contents := [TextContent.mk "text" ("Error: " ++ e)],
          effects := ro.effects, tempAfter := ro.tempAfter }

/-- Embedding of the dispatcher `call_tool` (server.py lines 209-214);
`args` models the `arguments` dict, and `arguments.get("question", "")`
is an association-list lookup defaulting to `""`. -/
def callTool (name : String) (args : List (String × String)) (cfg : Config)
    (today : PDate) (dev : Device) (mo : ModelOracle) (dur : Nat) : AskOutcome :=
  if name = "aiAsk" then
    aiAsk cfg (match args.lookup "question" with | some v => v | none => "")
      today dev mo dur
  else
    { contents := [TextContent.mk "text" ("Unknown tool: " ++ name)],
      effects := [], tempAfter := false }

/-- Boolean marker of the failure paths of `ai_ask`: missing credential,
empty question, deadline exceeded, or an exception raised inside the
worker (capture, transport, or malformed-response failure). -/
def aiAskFailed (cfg : Config) (question : String) (today : PDate)
    (dev : Device) (mo : ModelOracle) (dur : Nat) : Bool :=
  cfg.apikey = "" || question = "" || aiAskDeadline < dur ||
    (match (runRequest cfg question today dev mo).result with
     | .error _ => true
     | .ok _ => false)

/-! ### Supporting lemmas -/

theorem digitChar_ne_nl (n : Nat) : digitChar n ≠ '\n' := by
  unfold digitChar
  split <;> decide

theorem weekdayName_noNL (y m d : Nat) :
    ∀ c ∈ (weekdayName y m d).data, c ≠ '\n' := by
  unfold weekdayName
  split <;> decide

theorem formatDate_noNL (d : PDate) : ∀ c ∈ (formatDate d).data, c ≠ '\n' := by
  intro c hc
  simp only [formatDate, pad4, pad2, String.data_append, List.mem_append,
    List.mem_cons, List.not_mem_nil, or_false] at hc
  casesm* _ ∨ _
  all_goals
    rename_i hc2
  all_goals
    first
      | (rw [hc2]; exact digitChar_ne_nl _)
      | (subst hc2; decide)
      | exact weekdayName_noNL _ _ _ c hc2

theorem dropLine1_append_of_noNL (a b : List Char)
    (h : ∀ c ∈ a, c ≠ '\n') : dropLine1 (a ++ b) = dropLine1 b := by
  induction a with
  | nil => rfl
  | cons c cs ih =>
    have hc : c ≠ '\n' := h c (by simp)
    simp only [List.cons_append, dropLine1, if_neg hc]
    exact ih fun x hx => h x (by simp [hx])

theorem prompt_dropLine1 (d : PDate) :
    dropLine1 (getSystemPrompt d).data = systemPromptBody.data := by
  unfold getSystemPrompt
  simp only [String.data_append, List.append_assoc]
  rw [dropLine1_append_of_noNL _ _ (by decide)]
  rw [dropLine1_append_of_noNL _ _ (formatDate_noNL d)]
  rfl

/-- Computation of the worker on the all-success path: capture, pull and
decode succeed and the model call returns `reply`. -/
theorem runRequest_ok (cfg : Config) (q : String) (today : PDate)
    (dev : Device) (mo : ModelOracle) (w h : Nat) (reply : String)
    (h1 : dev.screencapOk = true) (h2 : dev.pullOk = true)
    (h3 : dev.decode dev.imgData = some (w, h))
    (hm : ∀ r, mo.response r = .ok reply) :
    runRequest cfg q today dev mo =
      { result := .ok (augmentResult w h reply),
        sentRequest := some
          { modelName := cfg.modelName,
            systemContent := getSystemPrompt today,
            imageUrl := "data:image/png;base64," ++ base64Encode dev.imgData,
            textBody := q ++ "\n\n" ++ jsonCurrentApp (getCurrentApp dev.dumpsysResult) },
        effects := [.adbScreencap, .adbPull, .adbDumpsys, .modelCall],
        tempAfter := false } := by
  unfold runRequest getScreenshotWithInfo removeTemp capBody
  simp [h1, h2, h3, hm]

/-! ### Claim C1 -/

/-- C1 is false as stated: the conversion note of a snapshot of width 1600
states the truncating formula `x_pixel = int(x / 1000 * 1600)`, and at the
relative coordinate x = 1 that stated formula yields 1 while
round(1/1000·1600) = round(1.6) = 2; the stated formula is therefore not
the rounding formula `pixel = round(relative / 1000 * dimension)`. -/
theorem note_round_formula_cex :
    strOccurs "x_pixel = int(x / 1000 * 1600)" (conversionNote 1600 900) = true ∧
    statedPixel 1 1600 ≠ specRoundPixel 1 1600 :=
  ⟨by decide, by decide⟩

/-- C1 (amended): for every snapshot with width W and height H, the
conversion note appended to the model's reply states the truncating linear
conversion `pixel = int(relative / 1000 * dimension)` for both axes, i.e.
`pixel_x = ⌊x·W/1000⌋` and `pixel_y = ⌊y·H/1000⌋`; for `x, y` in
`[0, 1000]` the stated formula agrees with `round(relative/1000*dimension)`
exactly when the fractional part of the quotient is below one half. -/
theorem note_truncating_formula (w h x y : Nat)
    (hx : x ≤ 1000) (hy : y ≤ 1000) :
    strOccurs ("x_pixel = int(x / 1000 * " ++ toString w ++ ")")
      (conversionNote w h) = true ∧
    strOccurs ("y_pixel = int(y / 1000 * " ++ toString h ++ ")")
      (conversionNote w h) = true ∧
    (statedPixel x w = specRoundPixel x w ↔ 2 * (x * w % 1000) < 1000) ∧
    (statedPixel y h = specRoundPixel y h ↔ 2 * (y * h % 1000) < 1000) :=
  ⟨note_contains_xf w h, note_contains_yf w h,
    floor_eq_roundHalfUp (x * w), floor_eq_roundHalfUp (y * h)⟩

theorem note_truncating_formula_witness :
    strOccurs ("x_pixel = int(x / 1000 * " ++ toString 1080 ++ ")")
      (conversionNote 1080 2400) = true ∧
    (statedPixel 500 1080 = specRoundPixel 500 1080 ↔
      2 * (500 * 1080 % 1000) < 1000) := by
  have h := note_truncating_formula 1080 2400 500 700 (by decide) (by decide)
  exact ⟨h.1, h.2.2.1⟩

/-! ### Claim C5 -/

/-- C5: `get_screenshot_with_info` creates a temporary file (it exists on
every exit path of the `try` block) and removes it on every exit path —
success, decode failure, or an exception from the capture or pull steps —
so after the function returns or raises, the temporary file no longer
exists. -/
theorem temp_file_always_removed (dev : Device) :
    (getScreenshotWithInfo dev).tempAfter = false ∧
    (capBody dev).tempAfter = true := by
  refine ⟨removeTemp_tempAfter (capBody dev), ?_⟩
  unfold capBody
  cases h1 : dev.screencapOk <;> cases h2 : dev.pullOk <;> simp <;>
    rcases h3 : dev.decode dev.imgData with _ | ⟨w, hh⟩ <;> simp

/-! ### Claim C9 -/

/-- C9: the system prompt is pure given the date: two evaluations of
`get_system_prompt` with the same current date produce identical strings,
evaluations with different dates agree on everything after the first
(date) line, and the first line is the embedded date line. -/
theorem system_prompt_pure_in_date (d1 d2 : PDate) :
    (d1 = d2 → getSystemPrompt d1 = getSystemPrompt d2) ∧
    dropLine1 (getSystemPrompt d1).data = dropLine1 (getSystemPrompt d2).data ∧
    strStarts "The current date: " (getSystemPrompt d1) = true := by
  refine ⟨fun h => by rw [h], ?_, ?_⟩
  · rw [prompt_dropLine1, prompt_dropLine1]
  · unfold strStarts getSystemPrompt
    simp only [String.data_append, List.append_assoc]
    exact prefL_append _ _

theorem system_prompt_pure_in_date_witness :
    getSystemPrompt ⟨2026, 10, 12⟩ = getSystemPrompt ⟨2026, 10, 12⟩ ∧
    dropLine1 (getSystemPrompt ⟨2026, 10, 12⟩).data =
      dropLine1 (getSystemPrompt ⟨2026, 11, 1⟩).data :=
  ⟨(system_prompt_pure_in_date ⟨2026, 10, 12⟩ ⟨2026, 10, 12⟩).1 rfl,
    (system_prompt_pure_in_date ⟨2026, 10, 12⟩ ⟨2026, 11, 1⟩).2.1⟩

theorem strStarts_self_append (p r : String) : strStarts p (p ++ r) = true := by
  unfold strStarts
  rw [String.data_append]
  exact prefL_append _ _

/-! ### Claim C2 -/

/-- C2: on every successful query the width and height embedded in the
conversion note of the returned result are exactly the `w`, `h` decoded
(by the image library) from the screenshot bytes, and the image sent to
the model in that same call is the data-URI encoding of those same bytes —
no stale or substituted resolution. -/
theorem note_resolution_matches_sent_image (cfg : Config) (q : String)
    (today : PDate) (dev : Device) (mo : ModelOracle) (w h : Nat)
    (reply : String)
    (h1 : dev.screencapOk = true) (h2 : dev.pullOk = true)
    (h3 : dev.decode dev.imgData = some (w, h))
    (hm : ∀ r, mo.response r = .ok reply) :
    ∃ req s,
      (runRequest cfg q today dev mo).sentRequest = some req ∧
      req.imageUrl = "data:image/png;base64," ++ base64Encode dev.imgData ∧
      (runRequest cfg q today dev mo).result = .ok s ∧
      strOccurs ("- Resolution: " ++ toString w ++ " x " ++ toString h) s = true := by
  rw [runRequest_ok cfg q today dev mo w h reply h1 h2 h3 hm]
  refine ⟨_, augmentResult w h reply, rfl, rfl, rfl, ?_⟩
  unfold strOccurs augmentResult
  rw [String.data_append]
  exact note_contains_res w h reply.data

/-! ### Claim C3 -/

/-- C3: with an empty configured APIKEY, `ai_ask` returns a single text
result starting with "Error:" (the fixed missing-credential message) and
performs no external call at all — no adb call and no model call: the
credential check precedes snapshot capture and the network request. -/
theorem apikey_missing_guard (cfg : Config) (q : String) (today : PDate)
    (dev : Device) (mo : ModelOracle) (dur : Nat) (hk : cfg.apikey = "") :
    (aiAsk cfg q today dev mo dur).contents =
      [TextContent.mk "text" "Error: AUTOGLM_APIKEY environment variable not set"] ∧
    (aiAsk cfg q today dev mo dur).effects = [] ∧
    strStarts "Error:" "Error: AUTOGLM_APIKEY environment variable not set" = true :=
  ⟨by simp [aiAsk, hk], by simp [aiAsk, hk], by decide⟩

/-! ### Claim C4 -/

/-- C4: with an empty question, `ai_ask` returns an "Error:"-prefixed text
result and performs no external call (in particular no device capture);
when the credential check passes, the result is exactly the fixed
empty-question message, i.e. the non-empty-question precondition is
checked before the capture stage is entered. -/
theorem empty_question_guard (cfg : Config) (today : PDate) (dev : Device)
    (mo : ModelOracle) (dur : Nat) :
    (aiAsk cfg "" today dev mo dur).effects = [] ∧
    (∃ t, (aiAsk cfg "" today dev mo dur).contents = [TextContent.mk "text" t] ∧
      strStarts "Error:" t = true) ∧
    (cfg.apikey ≠ "" → (aiAsk cfg "" today dev mo dur).contents =
      [TextContent.mk "text" "Error: Question cannot be empty"]) := by
  by_cases hk : cfg.apikey = ""
  · exact ⟨by simp [aiAsk, hk],
      ⟨"Error: AUTOGLM_APIKEY environment variable not set",
        by simp [aiAsk, hk], by decide⟩,
      fun hcon => absurd hk hcon⟩
  · exact ⟨by simp [aiAsk, hk],
      ⟨"Error: Question cannot be empty", by simp [aiAsk, hk], by decide⟩,
      fun _ => by simp [aiAsk, hk]⟩

/-! ### Claim C6 -/

/-- C6: foreground-app detection is non-fatal.  If the dumpsys call raises
(`dump = none`) or its output contains no match of the pattern
`(?:mResumedActivity|topResumedActivity).*?(\S+)/\S+` (modelled by
`searchApp`), `get_current_app` returns the sentinel "unknown" instead of
raising; and for every dumpsys outcome whatsoever the query still succeeds
end-to-end when capture and model call succeed. -/
theorem app_probe_nonfatal :
    getCurrentApp none = "unknown" ∧
    (∀ out : String, searchApp out.data = none →
      getCurrentApp (some out) = "unknown") ∧
    (∀ (cfg : Config) (q : String) (today : PDate) (dev : Device)
      (mo : ModelOracle) (dur w h : Nat) (reply : String),
      cfg.apikey ≠ "" → q ≠ "" → dur ≤ aiAskDeadline →
      dev.screencapOk = true → dev.pullOk = true →
      dev.decode dev.imgData = some (w, h) →
      (∀ r, mo.response r = .ok reply) →
      (aiAsk cfg q today dev mo dur).contents =
        [TextContent.mk "text" (augmentResult w h reply)]) := by
  refine ⟨rfl, ?_, ?_⟩
  · intro out hs
    simp [getCurrentApp, hs]
  · intro cfg q today dev mo dur w h reply hk hq hdur h1 h2 h3 hm
    simp [aiAsk, hk, hq, Nat.not_lt.mpr hdur,
      runRequest_ok cfg q today dev mo w h reply h1 h2 h3 hm]

/-! ### Claim C7 -/

/-- C7: the whole blocking worker runs under the single deadline
`aiAskDeadline = 60`; when the worker's duration exceeds it, `ai_ask`
returns exactly the fixed "Error:"-prefixed timeout message, and the
returned contents do not depend on the model oracle — the call detaches
from the outstanding request instead of waiting for its result. -/
theorem timeout_fixed_message (cfg : Config) (q : String) (today : PDate)
    (dev : Device) (mo : ModelOracle) (dur : Nat)
    (hk : cfg.apikey ≠ "") (hq : q ≠ "") (hdur : aiAskDeadline < dur) :
    (aiAsk cfg q today dev mo dur).contents =
      [TextContent.mk "text" "Error: Request timeout (60 seconds)"] ∧
    strStarts "Error:" "Error: Request timeout (60 seconds)" = true ∧
    aiAskDeadline = 60 ∧
    ∀ mo2 : ModelOracle, (aiAsk cfg q today dev mo2 dur).contents =
      (aiAsk cfg q today dev mo dur).contents := by
  have hmain : ∀ m : ModelOracle, (aiAsk cfg q today dev m dur).contents =
      [TextContent.mk "text" "Error: Request timeout (60 seconds)"] := by
    intro m
    simp [aiAsk, hk, hq, hdur]
  exact ⟨hmain mo, by decide, rfl, fun mo2 => by rw [hmain mo2, hmain mo]⟩

/-! ### Claim C8 -/

/-- C8: every invocation of `ai_ask` returns exactly one text content item
(never a structural failure), and on every failure path — missing
credential, empty question, deadline exceeded, or an exception from the
worker (capture, transport, or malformed-response failure) — its text is
prefixed "Error: ". -/
theorem errors_become_text_results (cfg : Config) (q : String) (today : PDate)
    (dev : Device) (mo : ModelOracle) (dur : Nat) :
    ∃ t, (aiAsk cfg q today dev mo dur).contents = [TextContent.mk "text" t] ∧
      (aiAskFailed cfg q today dev mo dur = true →
        strStarts "Error: " t = true) := by
  by_cases hk : cfg.apikey = ""
  · exact ⟨"Error: AUTOGLM_APIKEY environment variable not set",
      by simp [aiAsk, hk], fun _ => by decide⟩
  · by_cases hq : q = ""
    · exact ⟨"Error: Question cannot be empty",
        by simp [aiAsk, hk, hq], fun _ => by decide⟩
    · by_cases hd : aiAskDeadline < dur
      · exact ⟨"Error: Request timeout (60 seconds)",
          by simp [aiAsk, hk, hq, hd], fun _ => by decide⟩
      · rcases hr : (runRequest cfg q today dev mo).result with e | s
        · refine ⟨"Error: " ++ e, by simp [aiAsk, hk, hq, hd, hr],
            fun _ => strStarts_self_append "Error: " e⟩
        · refine ⟨s, by simp [aiAsk, hk, hq, hd, hr], fun hf => ?_⟩
          exfalso
          simp [aiAskFailed, hk, hq, hd, hr] at hf

/-! ### Claim C10 -/

/-- C10: when the dispatcher is invoked for "aiAsk" with an arguments
dictionary lacking the "question" key, the question defaults to the empty
string, so the call returns the same result as `ai_ask("")` — in
particular, with the credential configured, the fixed empty-question
"Error:" text — and performs no device capture. -/
theorem missing_question_defaults_empty (args : List (String × String))
    (cfg : Config) (today : PDate) (dev : Device) (mo : ModelOracle)
    (dur : Nat) (h : args.lookup "question" = none) :
    callTool "aiAsk" args cfg today dev mo dur = aiAsk cfg "" today dev mo dur ∧
    (callTool "aiAsk" args cfg today dev mo dur).effects = [] ∧
    (cfg.apikey ≠ "" → (callTool "aiAsk" args cfg today dev mo dur).contents =
      [TextContent.mk "text" "Error: Question cannot be empty"]) := by
  have he : callTool "aiAsk" args cfg today dev mo dur =
      aiAsk cfg "" today dev mo dur := by
    simp [callTool, h]
  refine ⟨he, ?_, fun hk => ?_⟩
  · rw [he]
    by_cases hk : cfg.apikey = "" <;> simp [aiAsk, hk]
  · rw [he]
    simp [aiAsk, hk]

/-! ### Concrete fixtures for the witnesses -/

def cfgW : Config :=
  { baseUrl := "https://api.z.ai/api/paas/v4",
    modelName := "autoglm-phone-multilingual", apikey := "test-key" }

def cfgNoKey : Config := { cfgW with apikey := "" }

def devW : Device :=
  { screencapOk := true, pullOk := true, imgData := [137, 80, 78, 71],
    decode := fun bs => if bs = [137, 80, 78, 71] then some (1080, 2400) else none,
    dumpsysResult := some "no resumed activity line" }

def replyW : String := "<answer>do(action=\"Tap\", element=[500,500])</answer>"

def moW : ModelOracle := ⟨fun _ => .ok replyW⟩

def dateW : PDate := ⟨2026, 10, 12⟩

theorem note_resolution_matches_sent_image_witness :
    ∃ req s,
      (runRequest cfgW "Where is the search button?" dateW devW moW).sentRequest = some req ∧
      req.imageUrl = "data:image/png;base64," ++ base64Encode devW.imgData ∧
      (runRequest cfgW "Where is the search button?" dateW devW moW).result = .ok s ∧
      strOccurs ("- Resolution: " ++ toString 1080 ++ " x " ++ toString 2400) s = true :=
  note_resolution_matches_sent_image cfgW "Where is the search button?" dateW
    devW moW 1080 2400 replyW rfl rfl (by decide) (fun _ => rfl)

theorem apikey_missing_guard_witness :
    (aiAsk cfgNoKey "where is settings" dateW devW moW 1).contents =
      [TextContent.mk "text" "Error: AUTOGLM_APIKEY environment variable not set"] ∧
    (aiAsk cfgNoKey "where is settings" dateW devW moW 1).effects = [] ∧
    strStarts "Error:" "Error: AUTOGLM_APIKEY environment variable not set" = true :=
  apikey_missing_guard cfgNoKey "where is settings" dateW devW moW 1 rfl

theorem empty_question_guard_witness :
    (aiAsk cfgW "" dateW devW moW 1).effects = [] ∧
    (aiAsk cfgW "" dateW devW moW 1).contents =
      [TextContent.mk "text" "Error: Question cannot be empty"] :=
  ⟨(empty_question_guard cfgW dateW devW moW 1).1,
    (empty_question_guard cfgW dateW devW moW 1).2.2 (by decide)⟩

theorem app_probe_nonfatal_witness :
    getCurrentApp (some "no resumed activity line") = "unknown" ∧
    (aiAsk cfgW "Where is the search button?" dateW devW moW 1).contents =
      [TextContent.mk "text" (augmentResult 1080 2400 replyW)] :=
  ⟨app_probe_nonfatal.2.1 "no resumed activity line" (by decide),
    app_probe_nonfatal.2.2 cfgW "Where is the search button?" dateW devW moW 1
      1080 2400 replyW (by decide) (by decide) (by decide) rfl rfl
      (by decide) (fun _ => rfl)⟩

theorem timeout_fixed_message_witness :
    (aiAsk cfgW "Where is the search button?" dateW devW moW 61).contents =
      [TextContent.mk "text" "Error: Request timeout (60 seconds)"] :=
  (timeout_fixed_message cfgW "Where is the search button?" dateW devW moW 61
    (by decide) (by decide) (by decide)).1

theorem errors_become_text_results_witness :
    ∃ t, (aiAsk cfgNoKey "q" dateW devW moW 1).contents =
        [TextContent.mk "text" t] ∧
      (aiAskFailed cfgNoKey "q" dateW devW moW 1 = true →
        strStarts "Error: " t = true) :=
  errors_become_text_results cfgNoKey "q" dateW devW moW 1

theorem missing_question_defaults_empty_witness :
    callTool "aiAsk" [("other", "x")] cfgW dateW devW moW 1 =
      aiAsk cfgW "" dateW devW moW 1 ∧
    (callTool "aiAsk" [("other", "x")] cfgW dateW devW moW 1).contents =
      [TextContent.mk "text" "Error: Question cannot be empty"] :=
  ⟨(missing_question_defaults_empty [("other", "x")] cfgW dateW devW moW 1
      (by decide)).1,
    (missing_question_defaults_empty [("other", "x")] cfgW dateW devW moW 1
      (by decide)).2.2 (by decide)⟩

end AutoglmMCP
